import Mathlib

/-!
Shallow embedding of the imgscaler service core: the in-memory job registry
(`app/services/job_queue.py`), the background job runner and the HTTP-facing
operations (`app/api/v1/upscaling.py`), the max-pixel clamp
(`app/utils/image_io.py`) and the dimension behaviour of the two upscaling
services (`app/services/upscale_service.py`,
`app/services/tfhub_upscale_service.py`).

Images are abstracted to their pixel dimensions: every operation the claims
range over (resize, clamp, the filter chain) either sets or preserves the
size, so dimensions are the faithful observable.  Python floats in
`clamp_large_image` are modelled in exact real arithmetic; the bridge lemmas
below show the integer form used in the executable definitions agrees with
the exact-real floor expression.  Byte strings are modelled as `List Nat`.
-/

namespace ImgScaler

/-- `JobStatus` string enum from `app/services/job_queue.py`. -/
inductive JobStatus
  | queued
  | processing
  | done
  | error
  deriving DecidableEq, Repr

/-- The `UpscaleJob` dataclass from `app/services/job_queue.py`. -/
structure UpscaleJob where
  id : String
  status : JobStatus
  progress : ℚ
  error : Option String
  result_bytes : Option (List Nat)
  content_type : Option String
  deriving DecidableEq, Repr

/-- A fresh job as built by `JobQueue.create`: the dataclass defaults
`status=queued, progress=0.0, error=None, result_bytes=None,
content_type=None`. -/
def mkJob (jobId : String) : UpscaleJob :=
  { id := jobId
    status := JobStatus.queued
    progress := 0
    error := none
    result_bytes := none
    content_type := none }

/-- A keyword-argument set passed to `JobQueue.update`: each field is either
absent (`none`) or supplies a new value.  These are the mutable fields of
`UpscaleJob` (the runner never rewrites `id`). -/
structure JobFields where
  status : Option JobStatus
  progress : Option ℚ
  error : Option String
  result_bytes : Option (List Nat)
  content_type : Option String
  deriving DecidableEq, Repr

/-- The empty keyword-argument set. -/
def noFields : JobFields :=
  { status := none
    progress := none
    error := none
    result_bytes := none
    content_type := none }

/-- The `for k, v in kwargs.items(): setattr(job, k, v)` loop of
`JobQueue.update`: supplied fields overwrite, absent fields are kept. -/
def applyFields (f : JobFields) (j : UpscaleJob) : UpscaleJob :=
  { id := j.id
    status := f.status.getD j.status
    progress := f.progress.getD j.progress
    error := match f.error with | some e => some e | none => j.error
    result_bytes := match f.result_bytes with | some b => some b | none => j.result_bytes
    content_type := match f.content_type with | some c => some c | none => j.content_type }

/-- The `JobQueue._jobs` dict: job id to job record. -/
def Registry : Type := String → Option UpscaleJob

/-- `JobQueue.get`: `self._jobs.get(job_id)`. -/
def Registry.get (r : Registry) (jobId : String) : Option UpscaleJob :=
  r jobId

/-- `JobQueue.create`: insert a fresh default job under a fresh id and
return it. -/
def Registry.createJob (r : Registry) (fresh : String) : UpscaleJob × Registry :=
  (mkJob fresh, fun i => if i = fresh then some (mkJob fresh) else r i)

/-- `JobQueue.update`: look the job up; if absent, return (the Python body
returns with no mutation); otherwise set each supplied field on the job. -/
def Registry.update (r : Registry) (jobId : String) (f : JobFields) : Registry :=
  match r jobId with
  | none => r
  | some j => fun i => if i = jobId then some (applyFields f j) else r i

/-- Field set of the runner's first update:
`update(job_id, status=processing, progress=0.05)`. -/
def processingFields : JobFields :=
  { noFields with status := some JobStatus.processing, progress := some (1/20 : ℚ) }

/-- Field set of the runner's success update: `update(job_id, status=done,
progress=1.0, result_bytes=..., content_type=...)`. -/
def doneFields (bytes : List Nat) (contentType : String) : JobFields :=
  { noFields with
    status := some JobStatus.done
    progress := some 1
    result_bytes := some bytes
    content_type := some contentType }

/-- Field set of the runner's failure update:
`update(job_id, status=error, error=str(exc))`. -/
def errorFields (cause : String) : JobFields :=
  { noFields with status := some JobStatus.error, error := some cause }

/-- The sequence of registry updates performed by one run of `_process_job`.
The `try` body (decode the bytes, run the selected backend, re-encode) is
abstracted by its outcome: `Except.ok (bytes, content_type)` when it returns,
`Except.error (str exc)` when it raises; the `except` clause maps the raised
exception to the single error update.  The processing update precedes the
`try`. -/
def processJobTrace (outcome : Except String (List Nat × String)) : List JobFields :=
  processingFields ::
    (match outcome with
     | Except.ok (bytes, ct) => [doneFields bytes ct]
     | Except.error e => [errorFields e])

/-- Effect of one `_process_job` run on the registry. -/
def runProcessJob (r : Registry) (jobId : String)
    (outcome : Except String (List Nat × String)) : Registry :=
  (processJobTrace outcome).foldl (fun s f => Registry.update s jobId f) r

/-- The states a job passes through in its modelled lifecycle: created by
`JobQueue.create`, then rewritten by each runner update in order. -/
def jobStates (jobId : String) (outcome : Except String (List Nat × String)) :
    List UpscaleJob :=
  (processJobTrace outcome).scanl (fun j f => applyFields f j) (mkJob jobId)

/-- An update is terminal when it sets status to done or to error. -/
def isTerminalUpdate (f : JobFields) : Bool :=
  decide (f.status = some JobStatus.done) || decide (f.status = some JobStatus.error)

/-- An image, abstracted to its pixel dimensions. -/
structure Img where
  width : Nat
  height : Nat
  deriving DecidableEq, Repr

/-- `clamp_large_image` from `app/utils/image_io.py`.  The Python body
computes `scale = (max_pixels / (width*height)) ** 0.5` and resizes to
`(int(width*scale), int(height*scale))`.  In exact real arithmetic
`⌊width * √(max_pixels/(width*height))⌋ = Nat.sqrt (width * max_pixels / height)`
(proved below as `clamp_width_eq_floor`), which is the executable form used
here. -/
def clamp_large_image (img : Img) (max_pixels : Nat) : Img :=
  if img.width * img.height > max_pixels then
    { width := Nat.sqrt (img.width * max_pixels / img.height)
      height := Nat.sqrt (img.height * max_pixels / img.width) }
  else img

/-- `max_image_pixels = 4096 * 4096` hard-coded in `UpscaleService.upscale`. -/
def UpscaleService.max_image_pixels : Nat := 4096 * 4096

/-- `UpscaleService._real_esrgan_upscale`: resizes to
`(w * factor, h * factor)`; every following step (edge map, unsharp mask,
contrast, colour, sharpen/denoise filters) preserves the size. -/
def UpscaleService.real_esrgan_upscale (img : Img) (factor : Nat) : Img :=
  { width := img.width * factor, height := img.height * factor }

/-- `UpscaleService.upscale`: clamp when over the pixel ceiling, then run the
filter pipeline. -/
def UpscaleService.upscale (img : Img) (factor : Nat) : Img :=
  let clamped :=
    if img.width * img.height > UpscaleService.max_image_pixels then
      clamp_large_image img UpscaleService.max_image_pixels
    else img
  UpscaleService.real_esrgan_upscale clamped factor

/-- `max_image_pixels = 4096 * 4096` hard-coded in
`TFHubUpscaleService.upscale`. -/
def TFHubUpscaleService.max_image_pixels : Nat := 4096 * 4096

/-- The TensorFlow Hub ESRGAN model, an external collaborator, modelled by
the 4x dimension contract its docstring declares
(`Upscaled PIL Image (4x resolution)`). -/
def TFHubUpscaleService.esrganModel (img : Img) : Img :=
  { width := img.width * 4, height := img.height * 4 }

/-- `TFHubUpscaleService.upscale`: clamp when over the pixel ceiling, then
run the model. -/
def TFHubUpscaleService.upscale (img : Img) : Img :=
  let clamped :=
    if img.width * img.height > TFHubUpscaleService.max_image_pixels then
      clamp_large_image img TFHubUpscaleService.max_image_pixels
    else img
  TFHubUpscaleService.esrganModel clamped

/-- The backend dispatch inside `_process_job`:
`if use_tfhub and TFHUB_AVAILABLE` run the TF-Hub service, else the PIL
service. -/
def runnerPipeline (img : Img) (factor : Nat) (use_tfhub tfhub_available : Bool) : Img :=
  if use_tfhub && tfhub_available then TFHubUpscaleService.upscale img
  else UpscaleService.upscale img factor

/-- Observable outcome of a synchronous endpoint: an HTTP 400 for a bad
factor, an HTTP 400 for an undecodable upload, or a processed artifact with
its dimensions (the pipeline ran). -/
inductive SyncResponse
  | validationError (code : Nat) (detail : String)
  | invalidImage (code : Nat) (detail : String)
  | processed (width height : Nat)
  deriving DecidableEq, Repr

/-- `POST /process` (`upscale_image`): factor is checked against {2,4,8}
before the upload is decoded; decode failure is a 400; otherwise the service
runs and the artifact dimensions are returned.  The upload and its decode
result are abstracted by `decoded`. -/
def upscale_image (factor : Nat) (decoded : Except String Img) : SyncResponse :=
  if ¬(factor = 2 ∨ factor = 4 ∨ factor = 8) then
    SyncResponse.validationError 400 "factor must be 2, 4, or 8"
  else
    match decoded with
    | Except.error _ => SyncResponse.invalidImage 400 "Invalid image file"
    | Except.ok img =>
      let u := UpscaleService.upscale img factor
      SyncResponse.processed u.width u.height

/-- `POST /download` (`upscale_and_download`): the body performs no factor
check at all; it decodes and runs the service directly. -/
def upscale_and_download (factor : Nat) (decoded : Except String Img) : SyncResponse :=
  match decoded with
  | Except.error _ => SyncResponse.invalidImage 400 "Invalid image file"
  | Except.ok img =>
    let u := UpscaleService.upscale img factor
    SyncResponse.processed u.width u.height

/-- Observable outcome of `POST /job`: an HTTP 400 rejection raised before
any job exists, or the created job's id and status. -/
inductive CreateJobResult
  | rejected (code : Nat) (detail : String)
  | accepted (jobId : String) (status : JobStatus)
  deriving DecidableEq, Repr

/-- `create_upscale_job`: with `use_tfhub`, reject when TF-Hub is
unavailable, otherwise force factor to 4; without it, reject a factor
outside {2,4,8}.  Only after validation is the job created and the runner
dispatched. -/
def create_upscale_job (r : Registry) (fresh : String) (factor : Nat)
    (use_tfhub tfhub_available : Bool) : CreateJobResult × Registry :=
  if use_tfhub then
    if tfhub_available = false then
      (CreateJobResult.rejected 400
        "TensorFlow Hub not available. Install with: poetry install --with ml", r)
    else
      let (job, r2) := Registry.createJob r fresh
      (CreateJobResult.accepted job.id job.status, r2)
  else
    if ¬(factor = 2 ∨ factor = 4 ∨ factor = 8) then
      (CreateJobResult.rejected 400 "factor must be 2, 4, or 8 for PIL mode", r)
    else
      let (job, r2) := Registry.createJob r fresh
      (CreateJobResult.accepted job.id job.status, r2)

/-- Observable outcome of `GET /job/{id}/result`: 404 JSON for an unknown
id, 409 JSON for a job not yet done, or the stored artifact bytes. -/
inductive ResultResponse
  | notFound (code : Nat) (detail : String)
  | notReady (code : Nat) (detail : String)
  | artifact (bytes : Option (List Nat)) (contentType : Option String)
  deriving DecidableEq, Repr

/-- `get_job_result`: 404 when the registry has no such job, 409
"job not completed" when its status is not done, else a streaming response
of `job.result_bytes` with `job.content_type`. -/
def get_job_result (r : Registry) (jobId : String) : ResultResponse :=
  match Registry.get r jobId with
  | none => ResultResponse.notFound 404 "job not found"
  | some job =>
    if job.status ≠ JobStatus.done then ResultResponse.notReady 409 "job not completed"
    else ResultResponse.artifact job.result_bytes job.content_type

/-- A one-job registry used to instantiate theorems at concrete inputs. -/
def regOne : Registry :=
  fun i => if i = "a" then some (mkJob "a") else none

/-- C4: `update` on an id absent from the registry is a no-op that leaves the
registry unchanged (and, being a total function, cannot raise); on a present
id it merges exactly the supplied fields into that job and leaves every
other id's entry untouched. -/
theorem registry_update_contract (r : Registry) (jobId : String) (f : JobFields) :
    (Registry.get r jobId = none → Registry.update r jobId f = r) ∧
    (∀ j, Registry.get r jobId = some j →
      Registry.get (Registry.update r jobId f) jobId = some (applyFields f j) ∧
      ∀ i, i ≠ jobId → Registry.get (Registry.update r jobId f) i = Registry.get r i) := by
  constructor
  · intro h
    unfold Registry.get at h
    unfold Registry.update
    rw [h]
  · intro j hj
    unfold Registry.get at hj
    refine ⟨?_, fun i hi => ?_⟩
    · unfold Registry.get Registry.update
      rw [hj]
      simp
    · unfold Registry.get Registry.update
      rw [hj]
      simp [hi]

/-- Witness for C4: the no-op branch on the empty registry, and the merge
branch on a one-job registry, at concrete inputs. -/
theorem registry_update_contract_witness :
    Registry.update (fun _ => none) "a" noFields = (fun _ => none) ∧
    Registry.get (Registry.update regOne "a" processingFields) "a" =
      some (applyFields processingFields (mkJob "a")) ∧
    Registry.get (Registry.update regOne "a" processingFields) "b" =
      Registry.get regOne "b" :=
  ⟨(registry_update_contract (fun _ => none) "a" noFields).1 rfl,
   ((registry_update_contract regOne "a" processingFields).2 (mkJob "a") (by decide)).1,
   ((registry_update_contract regOne "a" processingFields).2 (mkJob "a") (by decide)).2
     "b" (by decide)⟩

/-- C5: an invalid async submission — a factor outside {2,4,8} with the PIL
backend, or the TF-Hub backend while unavailable — is rejected with an HTTP
400 validation error carrying a descriptive cause, and the registry is
returned unchanged (no job is created). -/
theorem invalid_submission_rejected (r : Registry) (fresh : String) (factor : Nat)
    (tfhub_available : Bool) :
    (¬(factor = 2 ∨ factor = 4 ∨ factor = 8) →
      create_upscale_job r fresh factor false tfhub_available =
        (CreateJobResult.rejected 400 "factor must be 2, 4, or 8 for PIL mode", r)) ∧
    (∀ f2 : Nat,
      create_upscale_job r fresh f2 true false =
        (CreateJobResult.rejected 400
          "TensorFlow Hub not available. Install with: poetry install --with ml", r)) := by
  constructor
  · intro h
    simp [create_upscale_job, h]
  · intro f2
    simp [create_upscale_job]

/-- Witness for C5: factor 3 with the PIL backend, and the TF-Hub backend
while unavailable, both rejected on the empty registry. -/
theorem invalid_submission_rejected_witness :
    ¬((3 : Nat) = 2 ∨ (3 : Nat) = 4 ∨ (3 : Nat) = 8) ∧
    create_upscale_job (fun _ => none) "a" 3 false true =
      (CreateJobResult.rejected 400 "factor must be 2, 4, or 8 for PIL mode",
        (fun _ => none)) ∧
    create_upscale_job (fun _ => none) "a" 4 true false =
      (CreateJobResult.rejected 400
        "TensorFlow Hub not available. Install with: poetry install --with ml",
        (fun _ => none)) :=
  ⟨by decide,
   (invalid_submission_rejected (fun _ => none) "a" 3 true).1 (by decide),
   (invalid_submission_rejected (fun _ => none) "a" 4 true).2 4⟩

/-- C6: requesting the artifact of an existing job whose status is not done
yields the 409 "not ready" outcome, which is distinct from the 404 "not
found" outcome and carries no artifact bytes; artifact bytes are returned
only for a job in status done. -/
theorem artifact_not_ready_distinct (r : Registry) (jobId : String) (job : UpscaleJob)
    (hget : Registry.get r jobId = some job) (hnd : job.status ≠ JobStatus.done) :
    get_job_result r jobId = ResultResponse.notReady 409 "job not completed" ∧
    ResultResponse.notReady 409 "job not completed" ≠
      ResultResponse.notFound 404 "job not found" ∧
    (∀ bytes ct, get_job_result r jobId ≠ ResultResponse.artifact bytes ct) ∧
    (∀ (r2 : Registry) (id2 : String) (bytes : Option (List Nat)) (ct : Option String),
      get_job_result r2 id2 = ResultResponse.artifact bytes ct →
      ∃ j2, Registry.get r2 id2 = some j2 ∧ j2.status = JobStatus.done ∧
        bytes = j2.result_bytes) := by
  refine ⟨?_, by simp, ?_, ?_⟩
  · unfold get_job_result
    rw [hget]
    simp [hnd]
  · intro bytes ct
    unfold get_job_result
    rw [hget]
    simp [hnd]
  · intro r2 id2 bytes ct h
    unfold get_job_result at h
    cases hh : Registry.get r2 id2 with
    | none => rw [hh] at h; simp at h
    | some j2 =>
      rw [hh] at h
      by_cases hs : j2.status = JobStatus.done
      · refine ⟨j2, rfl, hs, ?_⟩
        simp [hs] at h
        exact h.1.symm
      · simp [hs] at h

/-- Witness for C6: the fresh (queued) job in the one-job registry is not
ready. -/
theorem artifact_not_ready_distinct_witness :
    Registry.get regOne "a" = some (mkJob "a") ∧
    (mkJob "a").status ≠ JobStatus.done ∧
    get_job_result regOne "a" = ResultResponse.notReady 409 "job not completed" :=
  ⟨by decide, by decide,
   (artifact_not_ready_distinct regOne "a" (mkJob "a") (by decide) (by decide)).1⟩

/-- C7 counterexample: the claim says factor validation holds on every
synchronous endpoint, but `/download` performs none — factor 3 with a
decodable 100×100 upload reaches the pipeline and yields a processed 300×300
artifact instead of a validation rejection. -/
theorem download_factor_not_validated :
    upscale_and_download 3 (Except.ok { width := 100, height := 100 }) =
      SyncResponse.processed 300 300 := by
  decide

/-- C7 amended: on the `/process` synchronous endpoint a factor outside
{2,4,8} is rejected with an HTTP 400 validation error before the upload is
decoded or the pipeline is invoked; the `/download` synchronous endpoint
performs no factor validation and invokes the pipeline with whatever factor
was supplied. -/
theorem process_validates_factor_download_does_not (factor : Nat)
    (decoded : Except String Img)
    (h : ¬(factor = 2 ∨ factor = 4 ∨ factor = 8)) :
    upscale_image factor decoded =
      SyncResponse.validationError 400 "factor must be 2, 4, or 8" ∧
    (∀ img, decoded = Except.ok img →
      upscale_and_download factor decoded =
        SyncResponse.processed (UpscaleService.upscale img factor).width
          (UpscaleService.upscale img factor).height) := by
  constructor
  · simp [upscale_image, h]
  · intro img himg
    subst himg
    simp [upscale_and_download]

/-- Witness for C7 (amended) at factor 3 with a decodable 100×100 upload. -/
theorem process_validates_factor_download_does_not_witness :
    ¬((3 : Nat) = 2 ∨ (3 : Nat) = 4 ∨ (3 : Nat) = 8) ∧
    upscale_image 3 (Except.ok { width := 100, height := 100 }) =
      SyncResponse.validationError 400 "factor must be 2, 4, or 8" :=
  ⟨by decide,
   (process_validates_factor_download_does_not 3
     (Except.ok { width := 100, height := 100 }) (by decide)).1⟩

/-- C10: the clamp truncates `width * scale` toward zero, so an over-limit
image with extreme aspect ratio — width 1, height 2 * 16777216 — is mapped
to width 0: the clamp does not guarantee strictly positive output
dimensions. -/
theorem clamp_can_produce_zero_dimension :
    1 * 33554432 > UpscaleService.max_image_pixels ∧
    (clamp_large_image { width := 1, height := 33554432 }
      UpscaleService.max_image_pixels).width = 0 := by
  constructor
  · decide
  · decide

/-- C1: along the modelled job lifecycle (the fresh job from `create`
followed by each runner update in order), a job in status done has a result
and no error, a job in status error has an error and no result, and a job in
status queued or processing has neither. -/
theorem job_result_error_exclusive (jobId : String)
    (outcome : Except String (List Nat × String)) (j : UpscaleJob)
    (hj : j ∈ jobStates jobId outcome) :
    (j.status = JobStatus.done → j.result_bytes ≠ none ∧ j.error = none) ∧
    (j.status = JobStatus.error → j.error ≠ none ∧ j.result_bytes = none) ∧
    ((j.status = JobStatus.queued ∨ j.status = JobStatus.processing) →
      j.error = none ∧ j.result_bytes = none) := by
  rcases outcome with e | ⟨bytes, ct⟩ <;>
    simp [jobStates, processJobTrace, applyFields, mkJob, processingFields,
      doneFields, errorFields, noFields] at hj <;>
    rcases hj with h | h | h <;> subst h <;> simp

/-- Witness for C1: the terminal state of a successful run. -/
theorem job_result_error_exclusive_witness :
    (mkJob "j1" ∈ jobStates "j1" (Except.ok ([0], "image/png"))) ∧
    (((mkJob "j1").status = JobStatus.queued ∨
        (mkJob "j1").status = JobStatus.processing) →
      (mkJob "j1").error = none ∧ (mkJob "j1").result_bytes = none) :=
  ⟨by decide,
   (job_result_error_exclusive "j1" (Except.ok ([0], "image/png")) (mkJob "j1")
     (by decide)).2.2⟩

/-- C2: whatever the outcome of the decode/pipeline body — a value or a
raised exception — the runner (a total function: no exception escapes it)
performs exactly one terminal registry update, it is the last update of the
run, every preceding update is non-terminal, and a raised exception is
recorded through the single error update carrying its string form. -/
theorem runner_exactly_one_terminal_update
    (outcome : Except String (List Nat × String)) :
    (processJobTrace outcome).countP (fun f => isTerminalUpdate f) = 1 ∧
    ((processJobTrace outcome).dropLast.all fun f => !isTerminalUpdate f) = true ∧
    (∀ e : String, outcome = Except.error e →
      (processJobTrace outcome).getLast? = some (errorFields e)) := by
  rcases outcome with e | ⟨bytes, ct⟩ <;>
    simp [processJobTrace, isTerminalUpdate, processingFields, doneFields,
      errorFields, noFields, List.countP_cons]

/-- Witness for C2: a run whose body raised `ValueError("boom")`. -/
theorem runner_exactly_one_terminal_update_witness :
    (processJobTrace (Except.error "boom")).countP (fun f => isTerminalUpdate f) = 1 ∧
    (processJobTrace (Except.error "boom")).getLast? = some (errorFields "boom") :=
  ⟨(runner_exactly_one_terminal_update (Except.error "boom")).1,
   (runner_exactly_one_terminal_update (Except.error "boom")).2.2 "boom" rfl⟩

/-- C3: along the modelled lifecycle, progress stays within [0,1] and is
non-decreasing across the whole update sequence (in particular while status
is queued or processing); the runner's first update simultaneously moves
status to processing and progress to the small non-zero value 1/20 (0.05);
and on success the terminal update simultaneously moves status to done and
progress to 1. -/
theorem progress_monotone_bounded (jobId : String)
    (outcome : Except String (List Nat × String)) :
    List.Chain' (· ≤ ·) ((jobStates jobId outcome).map UpscaleJob.progress) ∧
    (∀ j ∈ jobStates jobId outcome, 0 ≤ j.progress ∧ j.progress ≤ 1) ∧
    ((processJobTrace outcome).head? = some processingFields ∧
      processingFields.status = some JobStatus.processing ∧
      processingFields.progress = some (1/20 : ℚ) ∧ (0 : ℚ) < 1/20) ∧
    (∀ bytes ct, outcome = Except.ok (bytes, ct) →
      (processJobTrace outcome).getLast? = some (doneFields bytes ct) ∧
      (doneFields bytes ct).status = some JobStatus.done ∧
      (doneFields bytes ct).progress = some 1) := by
  rcases outcome with e | ⟨bytes, ct⟩ <;>
    refine ⟨?_, ?_, ?_, ?_⟩ <;>
    simp [jobStates, processJobTrace, applyFields, mkJob, processingFields,
      doneFields, errorFields, noFields] <;>
    norm_num

/-- Witness for C3: the bound conjunct at the created job of a failing
run. -/
theorem progress_monotone_bounded_witness :
    (mkJob "j2" ∈ jobStates "j2" (Except.error "boom")) ∧
    (0 ≤ (mkJob "j2").progress ∧ (mkJob "j2").progress ≤ 1) :=
  ⟨by decide,
   (progress_monotone_bounded "j2" (Except.error "boom")).2.1 (mkJob "j2") (by decide)⟩

/-- Floor of a real square root of a nonnegative real, as `Nat.sqrt` of the
floor: `⌊√x⌋₊ = Nat.sqrt ⌊x⌋₊`. -/
theorem natFloor_real_sqrt (x : ℝ) (hx : 0 ≤ x) :
    ⌊Real.sqrt x⌋₊ = Nat.sqrt ⌊x⌋₊ := by
  apply le_antisymm
  · rw [Nat.le_sqrt]
    apply Nat.le_floor
    push_cast
    calc
      ((⌊Real.sqrt x⌋₊ : ℝ)) * (⌊Real.sqrt x⌋₊ : ℝ) ≤ Real.sqrt x * Real.sqrt x := by
        have hfl := Nat.floor_le (Real.sqrt_nonneg x)
        exact mul_le_mul hfl hfl (by positivity) (Real.sqrt_nonneg x)
      _ = x := Real.mul_self_sqrt hx
  · apply Nat.le_floor
    rw [Real.le_sqrt (by positivity) hx]
    calc
      ((Nat.sqrt ⌊x⌋₊ : ℝ)) ^ 2 = ((Nat.sqrt ⌊x⌋₊ * Nat.sqrt ⌊x⌋₊ : ℕ) : ℝ) := by
        push_cast
        ring
      _ ≤ (⌊x⌋₊ : ℝ) := by exact_mod_cast Nat.sqrt_le _
      _ ≤ x := Nat.floor_le hx

/-- `⌊√(a/b)⌋₊ = Nat.sqrt (a / b)` for naturals `a`, `b` (the right-hand
division is natural-number floor division). -/
theorem natFloor_sqrt_div (a b : ℕ) :
    ⌊Real.sqrt ((a : ℝ) / (b : ℝ))⌋₊ = Nat.sqrt (a / b) := by
  rcases Nat.eq_zero_or_pos b with hb | hb
  · subst hb
    simp
  · rw [natFloor_real_sqrt _ (by positivity), Nat.floor_div_nat, Nat.floor_natCast]

/-- Truncating `w * √(max/(w*h))` (the Python `int(width * scale)`) equals
the executable `Nat.sqrt (w * max / h)` used in `clamp_large_image`. -/
theorem clamp_width_eq_floor (w h M : ℕ) (hw : 0 < w) (hh : 0 < h) :
    ⌊(w : ℝ) * Real.sqrt ((M : ℝ) / ((w : ℝ) * (h : ℝ)))⌋₊ = Nat.sqrt (w * M / h) := by
  have hw' : (0 : ℝ) < (w : ℝ) := by exact_mod_cast hw
  have hh' : (0 : ℝ) < (h : ℝ) := by exact_mod_cast hh
  have key : Real.sqrt (((w : ℝ) ^ 2) * ((M : ℝ) / ((w : ℝ) * (h : ℝ)))) =
      (w : ℝ) * Real.sqrt ((M : ℝ) / ((w : ℝ) * (h : ℝ))) := by
    rw [Real.sqrt_mul (by positivity), Real.sqrt_sq hw'.le]
  have harg : ((w : ℝ) ^ 2) * ((M : ℝ) / ((w : ℝ) * (h : ℝ))) =
      ((w * M : ℕ) : ℝ) / ((h : ℕ) : ℝ) := by
    push_cast
    field_simp
    ring
  rw [← key, harg, natFloor_sqrt_div]

/-- The pixel count after clamping is at most the ceiling. -/
theorem clamp_pixels_le (w h M : ℕ) (hover : M < w * h) :
    Nat.sqrt (w * M / h) * Nat.sqrt (h * M / w) ≤ M := by
  have hw : 0 < w := by
    rcases Nat.eq_zero_or_pos w with h0 | h0
    · subst h0; simp at hover
    · exact h0
  have hh : 0 < h := by
    rcases Nat.eq_zero_or_pos h with h0 | h0
    · subst h0; simp at hover
    · exact h0
  set a := Nat.sqrt (w * M / h) with ha_def
  set b := Nat.sqrt (h * M / w) with hb_def
  have ha : a * a * h ≤ w * M :=
    calc a * a * h ≤ (w * M / h) * h := Nat.mul_le_mul (Nat.sqrt_le _) le_rfl
      _ ≤ w * M := Nat.div_mul_le_self _ _
  have hb : b * b * w ≤ h * M :=
    calc b * b * w ≤ (h * M / w) * w := Nat.mul_le_mul (Nat.sqrt_le _) le_rfl
      _ ≤ h * M := Nat.div_mul_le_self _ _
  have hmul : (w * h) * ((a * b) * (a * b)) ≤ (w * h) * (M * M) :=
    calc (w * h) * ((a * b) * (a * b)) = (a * a * h) * (b * b * w) := by ring
      _ ≤ (w * M) * (h * M) := Nat.mul_le_mul ha hb
      _ = (w * h) * (M * M) := by ring
  have h2 : (a * b) * (a * b) ≤ M * M :=
    Nat.le_of_mul_le_mul_left hmul (Nat.mul_pos hw hh)
  by_contra hc
  push_neg at hc
  exact absurd h2 (not_le.2 (Nat.mul_self_lt_mul_self hc))

/-- `UpscaleService.upscale` is the filter pipeline applied to the clamped
image, for every input (the guard re-check inside `clamp_large_image` makes
the two coincide when the image is within the ceiling). -/
theorem upscale_factors_through_clamp (img : Img) (factor : Nat) :
    UpscaleService.upscale img factor =
      UpscaleService.real_esrgan_upscale
        (clamp_large_image img UpscaleService.max_image_pixels) factor := by
  by_cases hc : img.width * img.height > UpscaleService.max_image_pixels <;>
    simp [UpscaleService.upscale, clamp_large_image, hc]

/-- `TFHubUpscaleService.upscale` is the model applied to the clamped
image, for every input. -/
theorem tfhub_factors_through_clamp (img : Img) :
    TFHubUpscaleService.upscale img =
      TFHubUpscaleService.esrganModel
        (clamp_large_image img TFHubUpscaleService.max_image_pixels) := by
  by_cases hc : img.width * img.height > TFHubUpscaleService.max_image_pixels <;>
    simp [TFHubUpscaleService.upscale, clamp_large_image, hc]

/-- C8: an image at or below the 16-megapixel ceiling passes through the
clamp unchanged; an over-limit image is downscaled to a pixel count at most
the ceiling, and proportionally: both output dimensions are the floor of the
same real scale `s = √(ceiling/(w*h)) ∈ (0,1)` applied to the originals.
The guard is the same on both processing paths: both the filter service
(called by the synchronous endpoints and by the filter branch of the job
runner) and the TF-Hub service (the model branch of the job runner) factor
through `clamp_large_image` with the same 4096×4096 ceiling. -/
theorem max_pixel_guard (img : Img) :
    (img.width * img.height ≤ UpscaleService.max_image_pixels →
      clamp_large_image img UpscaleService.max_image_pixels = img) ∧
    (UpscaleService.max_image_pixels < img.width * img.height →
      (clamp_large_image img UpscaleService.max_image_pixels).width *
        (clamp_large_image img UpscaleService.max_image_pixels).height ≤
        UpscaleService.max_image_pixels) ∧
    (UpscaleService.max_image_pixels < img.width * img.height →
      ∃ s : ℝ, 0 < s ∧ s < 1 ∧
        (clamp_large_image img UpscaleService.max_image_pixels).width =
          ⌊(img.width : ℝ) * s⌋₊ ∧
        (clamp_large_image img UpscaleService.max_image_pixels).height =
          ⌊(img.height : ℝ) * s⌋₊) ∧
    (∀ factor, UpscaleService.upscale img factor =
      UpscaleService.real_esrgan_upscale
        (clamp_large_image img UpscaleService.max_image_pixels) factor) ∧
    (TFHubUpscaleService.upscale img =
      TFHubUpscaleService.esrganModel
        (clamp_large_image img TFHubUpscaleService.max_image_pixels)) ∧
    clamp_large_image img UpscaleService.max_image_pixels =
      clamp_large_image img TFHubUpscaleService.max_image_pixels := by
  obtain ⟨w, h⟩ := img
  refine ⟨?_, ?_, ?_, fun factor => upscale_factors_through_clamp _ factor,
    tfhub_factors_through_clamp _, rfl⟩
  · intro hle
    simp only [clamp_large_image]
    rw [if_neg (not_lt.mpr hle)]
  · intro hover
    simp only [clamp_large_image] at hover ⊢
    rw [if_pos hover]
    exact clamp_pixels_le w h UpscaleService.max_image_pixels hover
  · intro hover
    have hw : 0 < w := by
      rcases Nat.eq_zero_or_pos w with h0 | h0
      · subst h0; simp at hover
      · exact h0
    have hh : 0 < h := by
      rcases Nat.eq_zero_or_pos h with h0 | h0
      · subst h0; simp at hover
      · exact h0
    have hw' : (0 : ℝ) < (w : ℝ) := by exact_mod_cast hw
    have hh' : (0 : ℝ) < (h : ℝ) := by exact_mod_cast hh
    have hM : (0 : ℝ) < (UpscaleService.max_image_pixels : ℝ) := by
      norm_num [UpscaleService.max_image_pixels]
    refine ⟨Real.sqrt ((UpscaleService.max_image_pixels : ℝ) / ((w : ℝ) * (h : ℝ))),
      ?_, ?_, ?_, ?_⟩
    · exact Real.sqrt_pos.2 (div_pos hM (by positivity))
    · rw [Real.sqrt_lt' one_pos, one_pow, div_lt_one (by positivity)]
      exact_mod_cast hover
    · simp only [clamp_large_image]
      rw [if_pos hover]
      exact (clamp_width_eq_floor w h UpscaleService.max_image_pixels hw hh).symm
    · simp only [clamp_large_image]
      rw [if_pos hover]
      have := clamp_width_eq_floor h w UpscaleService.max_image_pixels hh hw
      rw [mul_comm (h : ℝ) (w : ℝ)] at this
      exact this.symm

/-- Witness for C8: a 100×100 image passes through unchanged; a 1×33554432
image is over the ceiling, ends with pixel count at most the ceiling, and is
scaled by a common real factor in (0,1). -/
theorem max_pixel_guard_witness :
    ((100 : Nat) * 100 ≤ UpscaleService.max_image_pixels ∧
      clamp_large_image { width := 100, height := 100 } UpscaleService.max_image_pixels =
        { width := 100, height := 100 }) ∧
    (UpscaleService.max_image_pixels < 1 * 33554432 ∧
      (clamp_large_image { width := 1, height := 33554432 }
          UpscaleService.max_image_pixels).width *
        (clamp_large_image { width := 1, height := 33554432 }
          UpscaleService.max_image_pixels).height ≤
        UpscaleService.max_image_pixels) ∧
    (∃ s : ℝ, 0 < s ∧ s < 1 ∧
      (clamp_large_image { width := 1, height := 33554432 }
          UpscaleService.max_image_pixels).width = ⌊((1 : Nat) : ℝ) * s⌋₊ ∧
      (clamp_large_image { width := 1, height := 33554432 }
          UpscaleService.max_image_pixels).height = ⌊((33554432 : Nat) : ℝ) * s⌋₊) :=
  ⟨⟨by decide, (max_pixel_guard { width := 100, height := 100 }).1 (by decide)⟩,
   ⟨by decide, (max_pixel_guard { width := 1, height := 33554432 }).2.1 (by decide)⟩,
   (max_pixel_guard { width := 1, height := 33554432 }).2.2.1 (by decide)⟩

/-- C9: the filter backend's output dimensions are factor times the
(possibly clamped) input dimensions; a 100×100 image at factor 2 gives a
200×200 output, and a successful run ends in status done carrying the
result; an over-limit 8192×4096 image at factor 2 gives 2 × (5792×2896),
factor times the clamped dimensions, not factor times the originals. -/
theorem filter_backend_output_dims (img : Img) (factor : Nat)
    (hf : factor = 2 ∨ factor = 4 ∨ factor = 8) :
    ((UpscaleService.upscale img factor).width =
        factor * (clamp_large_image img UpscaleService.max_image_pixels).width ∧
      (UpscaleService.upscale img factor).height =
        factor * (clamp_large_image img UpscaleService.max_image_pixels).height) ∧
    UpscaleService.upscale { width := 100, height := 100 } 2 =
      { width := 200, height := 200 } ∧
    (∀ jobId bytes ct, ∃ jlast,
      (jobStates jobId (Except.ok (bytes, ct))).getLast? = some jlast ∧
      jlast.status = JobStatus.done ∧ jlast.result_bytes = some bytes) ∧
    clamp_large_image { width := 8192, height := 4096 }
        UpscaleService.max_image_pixels =
      { width := 5792, height := 2896 } ∧
    UpscaleService.upscale { width := 8192, height := 4096 } 2 =
      { width := 2 * 5792, height := 2 * 2896 } ∧
    UpscaleService.upscale { width := 8192, height := 4096 } 2 ≠
      { width := 2 * 8192, height := 2 * 4096 } := by
  have hclamp : clamp_large_image { width := 8192, height := 4096 }
      UpscaleService.max_image_pixels = { width := 5792, height := 2896 } := by
    simp only [clamp_large_image, UpscaleService.max_image_pixels]
    norm_num
  refine ⟨?_, ?_, ?_, hclamp, ?_, ?_⟩
  · rw [upscale_factors_through_clamp]
    exact ⟨Nat.mul_comm _ _, Nat.mul_comm _ _⟩
  · decide
  · intro jobId bytes ct
    refine ⟨applyFields (doneFields bytes ct)
      (applyFields processingFields (mkJob jobId)), ?_, ?_, ?_⟩ <;>
      simp [jobStates, processJobTrace, applyFields, mkJob, processingFields,
        doneFields, noFields]
  · rw [upscale_factors_through_clamp, hclamp]
    decide
  · rw [upscale_factors_through_clamp, hclamp]
    decide

/-- Witness for C9 at factor 2 and a 100×100 image. -/
theorem filter_backend_output_dims_witness :
    ((2 : Nat) = 2 ∨ (2 : Nat) = 4 ∨ (2 : Nat) = 8) ∧
    UpscaleService.upscale { width := 100, height := 100 } 2 =
      { width := 200, height := 200 } :=
  ⟨by decide,
   (filter_backend_output_dims { width := 100, height := 100 } 2 (by decide)).2.1⟩

end ImgScaler
